import Mathlib

/-!
Verification of the layout-computation logic of `src/figma-plugin/code.js`
(a Figma plugin that rebuilds a portfolio page at 1440px width).

The script is a linear sequence of host-API calls; the logically
specifiable content is the layout arithmetic.  We embed that arithmetic
shallowly:

* machine numbers become `ℚ` (all the arithmetic the claims touch is
  exact in the rationals, including `Math.round`, modelled as
  `⌊q + 1/2⌋`);
* JavaScript's `parseInt(s, 16)` becomes `jsParseInt16` over `List Char`
  (whitespace skip, optional sign, optional `0x`/`0X`, maximal run of
  hex digits, `none` for NaN);
* text nodes whose size is computed by the renderer are measured through
  an abstract `Measure` oracle, so theorems quantify over every possible
  renderer-reported height/width;
* the host's `closePlugin` outcome report becomes a `HostCall` trace.
-/

namespace Catasandru

/-- JavaScript whitespace/line-terminator code points recognised by
`parseInt` before the number (space, tab, LF, CR, VT, FF, NBSP, BOM). -/
def isJsSpace (c : Char) : Bool :=
  c.toNat = 32 || c.toNat = 9 || c.toNat = 10 || c.toNat = 13 ||
  c.toNat = 11 || c.toNat = 12 || c.toNat = 160 || c.toNat = 65279

/-- Value of a single hexadecimal digit (`0-9`, `a-f`, `A-F`), `none`
for any other character. -/
def hexVal (c : Char) : Option Nat :=
  if 48 ≤ c.toNat ∧ c.toNat ≤ 57 then some (c.toNat - 48)
  else if 97 ≤ c.toNat ∧ c.toNat ≤ 102 then some (c.toNat - 87)
  else if 65 ≤ c.toNat ∧ c.toNat ≤ 70 then some (c.toNat - 55)
  else none

/-- Accumulate the value of the maximal leading run of hex digits;
`none` as accumulator means "no digit seen yet" (NaN). -/
def parseHexDigits : List Char → Option Nat → Option Nat
  | [], acc => acc
  | c :: cs, acc =>
    match hexVal c with
    | some d => parseHexDigits cs (some (acc.getD 0 * 16 + d))
    | none => acc

/-- Optional sign of a JS numeric string: `-` gives sign `-1`, `+` is
consumed with sign `1`, anything else leaves the string untouched. -/
def jsSignSplit (s : List Char) : Int × List Char :=
  match s with
  | c :: rest =>
    if c.toNat = 45 then (-1, rest)
    else if c.toNat = 43 then (1, rest)
    else (1, s)
  | [] => (1, [])

/-- Radix-16 `parseInt` drops a leading `0x`/`0X` before the digits. -/
def stripHex0x (s : List Char) : List Char :=
  match s with
  | a :: b :: rest =>
    if a.toNat = 48 ∧ (b.toNat = 120 ∨ b.toNat = 88) then rest else a :: b :: rest
  | s => s

/-- JavaScript `parseInt(s, 16)`: skip whitespace, read an optional
sign, drop an optional `0x` prefix, then interpret the longest run of
hex digits; `none` models the NaN result when no digit is found. -/
def jsParseInt16 (s : List Char) : Option Int :=
  let t := s.dropWhile isJsSpace
  let p := jsSignSplit t
  let t2 := stripHex0x p.2
  match parseHexDigits t2 none with
  | none => none
  | some n => some (p.1 * n)

/-- A color as produced by `rgb` in `code.js`: three channels, each the
result of a `parseInt(..)/255`; `none` models a NaN channel. -/
structure JsColor where
  r : Option ℚ
  g : Option ℚ
  b : Option ℚ
deriving DecidableEq

/-- `rgb(hex)` from `code.js`: channelwise
`parseInt(hex.slice(1,3),16)/255` and so on.  `slice(a,b)` on a string
is `(drop a).take (b-a)`.  The function performs no validation and
never throws: `parseInt` is total (NaN-valued on junk). -/
def rgb (hex : List Char) : JsColor :=
  { r := (jsParseInt16 ((hex.drop 1).take 2)).map (fun n => (n : ℚ) / 255)
    g := (jsParseInt16 ((hex.drop 3).take 2)).map (fun n => (n : ℚ) / 255)
    b := (jsParseInt16 ((hex.drop 5).take 2)).map (fun n => (n : ℚ) / 255) }

/-- The spec's shape predicate for `parseHexColor` input: `#` followed
by exactly six hexadecimal digits. -/
def isValidHex : List Char → Bool
  | c :: rest => c.toNat = 35 && rest.length = 6 && rest.all (fun d => (hexVal d).isSome)
  | [] => false

/-- All three channels of a color are defined (no NaN). -/
def channelsDefined (c : JsColor) : Bool :=
  c.r.isSome && c.g.isSome && c.b.isSome

-- ── helper lemmas about the hex parser ──────────────────────────────

/-- A hex digit's character code lies in one of the three digit ranges. -/
lemma hexVal_code_range {c : Char} {v : Nat} (h : hexVal c = some v) :
    (48 ≤ c.toNat ∧ c.toNat ≤ 57) ∨ (97 ≤ c.toNat ∧ c.toNat ≤ 102) ∨
    (65 ≤ c.toNat ∧ c.toNat ≤ 70) := by
  unfold hexVal at h
  split_ifs at h with h1 h2 h3
  · exact Or.inl h1
  · exact Or.inr (Or.inl h2)
  · exact Or.inr (Or.inr h3)

/-- A hex digit's value is at most 15. -/
lemma hexVal_le {c : Char} {v : Nat} (h : hexVal c = some v) : v ≤ 15 := by
  unfold hexVal at h
  split_ifs at h with h1 h2 h3 <;> injection h with h <;> omega

/-- A hex digit is not JS whitespace. -/
lemma hexVal_not_space {c : Char} {v : Nat} (h : hexVal c = some v) :
    isJsSpace c = false := by
  rcases hexVal_code_range h with h' | h' | h' <;>
    · unfold isJsSpace
      simp only [Bool.or_eq_false_iff, decide_eq_false_iff_not]
      omega

/-- Parsing exactly two hex digits yields `16·v₁ + v₂`. -/
lemma jsParseInt16_two_digits {d1 d2 : Char} {v1 v2 : Nat}
    (h1 : hexVal d1 = some v1) (h2 : hexVal d2 = some v2) :
    jsParseInt16 [d1, d2] = some ((v1 * 16 + v2 : Nat) : Int) := by
  have hs1 : isJsSpace d1 = false := hexVal_not_space h1
  have hr1 := hexVal_code_range h1
  have hr2 := hexVal_code_range h2
  have h45 : ¬ d1.toNat = 45 := by rcases hr1 with h | h | h <;> omega
  have h43 : ¬ d1.toNat = 43 := by rcases hr1 with h | h | h <;> omega
  have h0x : ¬ (d1.toNat = 48 ∧ (d2.toNat = 120 ∨ d2.toNat = 88)) := by
    rcases hr2 with h | h | h <;> omega
  have e1 : [d1, d2].dropWhile isJsSpace = [d1, d2] := by
    simp [List.dropWhile, hs1]
  have e2 : jsSignSplit [d1, d2] = (1, [d1, d2]) := by
    simp [jsSignSplit, h45, h43]
  have e3 : stripHex0x [d1, d2] = [d1, d2] := by
    simp [stripHex0x, h0x]
  simp only [jsParseInt16, e1, e2, e3]
  simp [parseHexDigits, h1, h2]

-- ── C2 family: rgb performs no validation ───────────────────────────

/-- A concrete counterexample string: `#` followed by seven hex digits,
hence not of the valid 7-character shape. -/
def badHex : List Char := ['#', '1', '2', '3', '4', '5', '6', '7']

/-- C2 (counterexample).  The claim says every string that is not `#`
plus exactly six hex digits makes the conversion fail with
`InvalidColorFormat`.  But `rgb` validates nothing: on the 8-character
string `#1234567` it happily returns a fully defined color
(18/255, 52/255, 86/255). -/
theorem rgb_no_failure_on_invalid :
    isValidHex badHex = false ∧ channelsDefined (rgb badHex) = true ∧
    rgb badHex = ⟨some (18 / 255), some (52 / 255), some (86 / 255)⟩ := by
  refine ⟨by decide, by decide, by rfl⟩

/-- C2 (amended).  `rgb` never fails and raises no
`InvalidColorFormat`: it is total on all strings.  On every string of
the valid shape all three channels are defined; strings of other shapes
are not rejected (they still yield a `JsColor`, with NaN channels only
when a sliced channel has no parseable hex prefix). -/
theorem rgb_valid_defined (s : List Char) (h : isValidHex s = true) :
    channelsDefined (rgb s) = true := by
  rcases s with _ | ⟨c, rest⟩
  · exact absurd h (by decide)
  · unfold isValidHex at h
    simp only [Bool.and_eq_true, decide_eq_true_eq, List.all_eq_true] at h
    obtain ⟨⟨-, hlen⟩, hall⟩ := h
    rcases rest with _ | ⟨d1, rest⟩; · simp at hlen
    rcases rest with _ | ⟨d2, rest⟩; · simp at hlen
    rcases rest with _ | ⟨d3, rest⟩; · simp at hlen
    rcases rest with _ | ⟨d4, rest⟩; · simp at hlen
    rcases rest with _ | ⟨d5, rest⟩; · simp at hlen
    rcases rest with _ | ⟨d6, rest⟩; · simp at hlen
    rcases rest with _ | ⟨d7, rest⟩
    swap; · simp at hlen
    obtain ⟨v1, hv1⟩ := Option.isSome_iff_exists.mp (hall d1 (by simp))
    obtain ⟨v2, hv2⟩ := Option.isSome_iff_exists.mp (hall d2 (by simp))
    obtain ⟨v3, hv3⟩ := Option.isSome_iff_exists.mp (hall d3 (by simp))
    obtain ⟨v4, hv4⟩ := Option.isSome_iff_exists.mp (hall d4 (by simp))
    obtain ⟨v5, hv5⟩ := Option.isSome_iff_exists.mp (hall d5 (by simp))
    obtain ⟨v6, hv6⟩ := Option.isSome_iff_exists.mp (hall d6 (by simp))
    unfold channelsDefined rgb
    simp only [List.drop, List.take]
    rw [jsParseInt16_two_digits hv1 hv2, jsParseInt16_two_digits hv3 hv4,
      jsParseInt16_two_digits hv5 hv6]
    simp

/-- Witness for `rgb_valid_defined` at the concrete string `#ffffff`. -/
theorem rgb_valid_defined_witness :
    channelsDefined (rgb ['#', 'f', 'f', 'f', 'f', 'f', 'f']) = true :=
  rgb_valid_defined ['#', 'f', 'f', 'f', 'f', 'f', 'f'] (by decide)

-- ── C3: valid strings give channels in [0,1]; rgb is pure ───────────

/-- A string of the valid shape is a head character of code 35 followed
by six characters with hex values. -/
lemma validHex_parts {s : List Char} (h : isValidHex s = true) :
    ∃ c d1 d2 d3 d4 d5 d6, ∃ v1 v2 v3 v4 v5 v6 : Nat,
      s = [c, d1, d2, d3, d4, d5, d6] ∧
      hexVal d1 = some v1 ∧ hexVal d2 = some v2 ∧ hexVal d3 = some v3 ∧
      hexVal d4 = some v4 ∧ hexVal d5 = some v5 ∧ hexVal d6 = some v6 := by
  rcases s with _ | ⟨c, rest⟩
  · exact absurd h (by decide)
  · unfold isValidHex at h
    simp only [Bool.and_eq_true, decide_eq_true_eq, List.all_eq_true] at h
    obtain ⟨⟨-, hlen⟩, hall⟩ := h
    rcases rest with _ | ⟨d1, rest⟩; · simp at hlen
    rcases rest with _ | ⟨d2, rest⟩; · simp at hlen
    rcases rest with _ | ⟨d3, rest⟩; · simp at hlen
    rcases rest with _ | ⟨d4, rest⟩; · simp at hlen
    rcases rest with _ | ⟨d5, rest⟩; · simp at hlen
    rcases rest with _ | ⟨d6, rest⟩; · simp at hlen
    rcases rest with _ | ⟨d7, rest⟩
    swap; · simp at hlen
    obtain ⟨v1, hv1⟩ := Option.isSome_iff_exists.mp (hall d1 (by simp))
    obtain ⟨v2, hv2⟩ := Option.isSome_iff_exists.mp (hall d2 (by simp))
    obtain ⟨v3, hv3⟩ := Option.isSome_iff_exists.mp (hall d3 (by simp))
    obtain ⟨v4, hv4⟩ := Option.isSome_iff_exists.mp (hall d4 (by simp))
    obtain ⟨v5, hv5⟩ := Option.isSome_iff_exists.mp (hall d5 (by simp))
    obtain ⟨v6, hv6⟩ := Option.isSome_iff_exists.mp (hall d6 (by simp))
    exact ⟨c, d1, d2, d3, d4, d5, d6, v1, v2, v3, v4, v5, v6, rfl,
      hv1, hv2, hv3, hv4, hv5, hv6⟩

/-- A channel built from two hex digits lies in the unit interval. -/
lemma channel_in_unit {v1 v2 : Nat} (h1 : v1 ≤ 15) (h2 : v2 ≤ 15) :
    0 ≤ (((v1 * 16 + v2 : Nat) : Int) : ℚ) / 255 ∧
      (((v1 * 16 + v2 : Nat) : Int) : ℚ) / 255 ≤ 1 := by
  have hle : (v1 * 16 + v2 : Nat) ≤ 255 := by omega
  constructor
  · positivity
  · rw [div_le_one (by norm_num)]
    exact_mod_cast hle

/-- C3.  For every string of shape `#` + six hex digits, `rgb` returns
three defined channels, each in the unit interval `[0,1]`; and it is a
pure function of its input (equal inputs give identical outputs — in
this embedding `rgb` reads no state besides its argument, exactly as
the source function touches nothing but `hex`). -/
theorem rgb_valid_in_unit_interval (s : List Char) (h : isValidHex s = true) :
    (∃ qr qg qb : ℚ,
      rgb s = ⟨some qr, some qg, some qb⟩ ∧
      0 ≤ qr ∧ qr ≤ 1 ∧ 0 ≤ qg ∧ qg ≤ 1 ∧ 0 ≤ qb ∧ qb ≤ 1) ∧
    ∀ t : List Char, t = s → rgb t = rgb s := by
  obtain ⟨c, d1, d2, d3, d4, d5, d6, v1, v2, v3, v4, v5, v6, hs,
    hv1, hv2, hv3, hv4, hv5, hv6⟩ := validHex_parts h
  subst hs
  refine ⟨⟨(((v1 * 16 + v2 : Nat) : Int) : ℚ) / 255,
          (((v3 * 16 + v4 : Nat) : Int) : ℚ) / 255,
          (((v5 * 16 + v6 : Nat) : Int) : ℚ) / 255, ?_, ?_, ?_, ?_, ?_, ?_, ?_⟩,
        fun t ht => by rw [ht]⟩
  · unfold rgb
    simp only [List.drop, List.take]
    rw [jsParseInt16_two_digits hv1 hv2, jsParseInt16_two_digits hv3 hv4,
      jsParseInt16_two_digits hv5 hv6]
    rfl
  · exact (channel_in_unit (hexVal_le hv1) (hexVal_le hv2)).1
  · exact (channel_in_unit (hexVal_le hv1) (hexVal_le hv2)).2
  · exact (channel_in_unit (hexVal_le hv3) (hexVal_le hv4)).1
  · exact (channel_in_unit (hexVal_le hv3) (hexVal_le hv4)).2
  · exact (channel_in_unit (hexVal_le hv5) (hexVal_le hv6)).1
  · exact (channel_in_unit (hexVal_le hv5) (hexVal_le hv6)).2

/-- Witness for `rgb_valid_in_unit_interval` at the string `#1d1d1d`
(a color the script actually uses). -/
theorem rgb_valid_in_unit_interval_witness :
    (∃ qr qg qb : ℚ,
      rgb ['#', '1', 'd', '1', 'd', '1', 'd'] = ⟨some qr, some qg, some qb⟩ ∧
      0 ≤ qr ∧ qr ≤ 1 ∧ 0 ≤ qg ∧ qg ≤ 1 ∧ 0 ≤ qb ∧ qb ≤ 1) ∧
    ∀ t : List Char, t = ['#', '1', 'd', '1', 'd', '1', 'd'] →
      rgb t = rgb ['#', '1', 'd', '1', 'd', '1', 'd'] :=
  rgb_valid_in_unit_interval ['#', '1', 'd', '1', 'd', '1', 'd'] (by decide)

-- ── Layout model ────────────────────────────────────────────────────

/-- JavaScript `Math.round`: round half away from zero upward, i.e.
`⌊x + 1/2⌋` (this matches JS on negatives too: `Math.round(-1.5) = -1`). -/
def jsRound (q : ℚ) : ℤ := ⌊q + 1 / 2⌋

/-- `FW` — total frame width (1440). -/
def FW : ℚ := 1440

/-- `GW` — grid width (1200). -/
def GW : ℚ := 1200

/-- `GX = (FW - GW) / 2` — grid left edge. -/
def GX : ℚ := (FW - GW) / 2

/-- `COL = GW / 2` — column width. -/
def COL : ℚ := GW / 2

/-- `HERO_H` — fixed hero section height. -/
def HERO_H : ℚ := 960

/-- `ROW_H` — the three literal project-row heights. -/
def ROW_H : List ℚ := [650, 700, 698]

/-- `PROJ_TOTAL = 80 + 120 + ROW_H[0] + 40 + ROW_H[1] + 40 + ROW_H[2] + 80`. -/
def PROJ_TOTAL : ℚ :=
  80 + 120 + ROW_H.getD 0 0 + 40 + ROW_H.getD 1 0 + 40 + ROW_H.getD 2 0 + 80

/-- The option record of the `txt` helper, with its default values. -/
structure TextOpts where
  size : ℚ := 16
  weight : String := "Regular"
  color : String := "#161616"
  opacity : ℚ := 1
  fixedW : Option ℚ := none
  lineH : Option ℚ := none
  tracking : ℚ := 0
  align : String := "LEFT"
  decoration : String := "NONE"
  name : String := "Text"
deriving DecidableEq

/-- A text node descriptor: position, content and options.  Its
rendered width/height are not part of the descriptor — the renderer
computes them (auto-resize), so they are supplied by a `Measure`. -/
structure TextNode where
  content : String
  x : ℚ
  y : ℚ
  opts : TextOpts
deriving DecidableEq

/-- `txt` from `code.js`, reduced to the data it determines: the node's
content, position and options (host-node creation is the renderer's). -/
def txt (content : String) (x y : ℚ) (opts : TextOpts) : TextNode :=
  ⟨content, x, y, opts⟩

/-- The renderer's measurement oracle: reported width and height of an
auto-sized text node.  Theorems quantify over all oracles, so they hold
for every renderer-reported size. -/
structure Measure where
  width : TextNode → ℚ
  height : TextNode → ℚ

/-- The hero H1 node (`code.js` lines 216–220):
`txt(hero, "PRODUCT DESIGNER", 0, Math.round(HERO_H * 0.38), {size: 74,
weight: "Bold", color: "#161616", fixedW: FW, lineH: 180, tracking: 2,
align: "CENTER", name: "Hero H1"})`. -/
def h1 : TextNode :=
  txt "PRODUCT DESIGNER" 0 ((jsRound (HERO_H * (38 / 100)) : ℚ))
    { size := 74, weight := "Bold", color := "#161616",
      fixedW := some FW, lineH := some 180, tracking := 2,
      align := "CENTER", name := "Hero H1" }

/-- One entry of the `projects` array. -/
structure ProjectEntry where
  imageLeft : Bool
  imageBg : String
  contentBg : String
  h : ℚ
  title : String
  desc : String
  role : String
  year : String
  btnLabel : String
  dark : Bool

/-- A column frame of a project row: geometry, background, name. -/
structure ColFrame where
  x : ℚ
  y : ℚ
  w : ℚ
  h : ℚ
  bg : String
  name : String
deriving DecidableEq

/-- The two column frames of a project row (`code.js` lines 294–304):
`leftBg = imageLeft ? imageBg : contentBg`,
`rightBg = imageLeft ? contentBg : imageBg`; the left column sits at
`GX`, the right at `GX + COL`, both `COL` wide and `p.h` tall. -/
def projRowCols (p : ProjectEntry) (ry : ℚ) : ColFrame × ColFrame :=
  let leftBg := if p.imageLeft then p.imageBg else p.contentBg
  let rightBg := if p.imageLeft then p.contentBg else p.imageBg
  let lCol : ColFrame :=
    ⟨GX, ry, COL, p.h, leftBg,
      if p.imageLeft then p.title ++ " – Image" else p.title ++ " – Content"⟩
  let rCol : ColFrame :=
    ⟨GX + COL, ry, COL, p.h, rightBg,
      if p.imageLeft then p.title ++ " – Content" else p.title ++ " – Image"⟩
  (lCol, rCol)

/-- `imgCol = imageLeft ? lCol : rCol` — the column holding the image
placeholder (`code.js` line 307). -/
def imgCol (p : ProjectEntry) (ry : ℚ) : ColFrame :=
  if p.imageLeft then (projRowCols p ry).1 else (projRowCols p ry).2

/-- `cCol = imageLeft ? rCol : lCol` — the column holding the real
content (`code.js` line 313). -/
def cCol (p : ProjectEntry) (ry : ℚ) : ColFrame :=
  if p.imageLeft then (projRowCols p ry).2 else (projRowCols p ry).1

/-- The content x-inset formula of `code.js` line 322,
`cX = COL - 400 - Math.round(COL * 0.24)`, abstracted over the column
width it is applied to. -/
def cX (col : ℚ) : ℚ := col - 400 - (jsRound (col * (24 / 100)) : ℚ)

/-- The inset value the script actually computes, at column width `COL`. -/
def cXUsed : ℚ := cX COL

/-- `inlineRow` (`code.js` lines 96–102): creates a bold blue text node
and, at `x + blue.width`, a dark one, then returns the constant 30
("height consumed per row").  The blue node's width comes from the
measurement oracle; the returned offset does not depend on it. -/
def inlineRow (m : Measure) (x y : ℚ) (blueStr darkStr : String) :
    (TextNode × TextNode) × ℚ :=
  let blue := txt blueStr x y { size := 16, weight := "Bold", color := "#005397" }
  let dark := txt ("  " ++ darkStr) (x + m.width blue) y
    { size := 16, weight := "Regular", color := "#1d1d1d", opacity := 68 / 100 }
  ((blue, dark), 30)

/-- The `expRows` literal of the About section. -/
def expRows : List (String × String) :=
  [("2016 - Present", "Docler Holding Luxembourg"),
   ("2013 - 2016", "Commercial Carpatica Bank, Sibiu, Romania"),
   ("2010 - 2013", "Commercial Carpatica Bank, Sibiu, Romania"),
   ("2006 - 2010", "Freelancer")]

/-- The `langRows` literal of the About section. -/
def langRows : List (String × String) :=
  [("English", "Fluent"), ("Italian", "Intermediate"), ("Romanian", "Native")]

/-- The experience loop: `for ([yr, co] of expRows) leftY += inlineRow(...)`. -/
def expLoop (m : Measure) (y0 : ℚ) : ℚ :=
  expRows.foldl (fun y r => y + (inlineRow m GX y r.1 r.2).2) y0

/-- The languages loop: `for ([lang, lvl] of langRows) rightY += inlineRow(...)`. -/
def langLoop (m : Measure) (y0 : ℚ) : ℚ :=
  langRows.foldl (fun y r => y + (inlineRow m (GX + COL) y r.1 r.2).2) y0

/-- The About section's final height `finalAboutH` (`code.js` lines
355–431): both columns accumulate from `80`, the footer strip starts at
`max(leftY, rightY + skillNode.height) + 80`, and the section ends
`fSocialY + 24 + 80` below the top.  Renderer-computed text heights
enter through the oracle `m`. -/
def finalAboutH (m : Measure) : ℚ :=
  let leftY0 : ℚ := 80
  let rightY0 : ℚ := 80
  let expTitle := txt "Experience" GX leftY0
    { size := 64, weight := "Bold", color := "#1d1d1d", lineH := some 60,
      name := "Experience Heading" }
  let leftY1 := leftY0 + m.height expTitle + 32
  let leftY2 := expLoop m leftY1
  let langX := GX + COL
  let langTitle := txt "Languages" langX rightY0
    { size := 64, weight := "Bold", color := "#1d1d1d", lineH := some 60,
      name := "Languages Heading" }
  let rightY1 := rightY0 + m.height langTitle + 32
  let rightY2 := langLoop m rightY1
  let rightY3 := rightY2 + 48
  let skillTitle := txt "Skills" langX rightY3
    { size := 64, weight := "Bold", color := "#1d1d1d", lineH := some 60,
      name := "Skills Heading" }
  let rightY4 := rightY3 + m.height skillTitle + 16
  let skillNode := txt
    "Photoshop, Sketch, Illustrator, Lightroom.\nInvision and a good understanding of front end development."
    langX rightY4
    { size := 16, weight := "Regular", color := "#1d1d1d",
      fixedW := some (COL - 40), lineH := some 30 }
  let fTopY := max leftY2 (rightY4 + m.height skillNode) + 80
  let fEmailY := fTopY + 52 + 48
  let fEmail := txt "hi@catasandru.com" 0 fEmailY
    { size := 20, weight := "Bold", color := "#161616", align := "CENTER",
      name := "Footer Email" }
  let fDivY := fEmailY + m.height fEmail + 16
  let fSocialY := fDivY + 5 + 16
  fSocialY + 24 + 80

/-- Consumed height of the hero section (`Y += HERO_H`). -/
def heroConsumed : ℚ := HERO_H

/-- Consumed height of the projects section (`Y += PROJ_TOTAL`). -/
def projConsumed : ℚ := PROJ_TOTAL

/-- Section y-origins and final root size of `build()`: the running
`Y` starts at 0, each section frame is created at the current `Y`, and
`Y` then advances by that section's consumed height; at the end the
root is resized to `(FW, Y)` (`code.js` lines 146, 152, 236, 244, 350,
355, 433, 436). -/
structure PageLayout where
  heroY : ℚ
  projectsY : ℚ
  aboutY : ℚ
  rootW : ℚ
  rootH : ℚ

/-- The vertical-assembly skeleton of `build()`. -/
def buildPage (m : Measure) : PageLayout :=
  let Y0 : ℚ := 0
  let Y1 := Y0 + HERO_H
  let Y2 := Y1 + PROJ_TOTAL
  let Y3 := Y2 + finalAboutH m
  { heroY := Y0, projectsY := Y1, aboutY := Y2, rootW := FW, rootH := Y3 }

/-- The host's outcome-report interface: the only terminal call the
script makes is `figma.closePlugin(message)`. -/
inductive HostCall where
  | closePlugin (msg : String)
deriving DecidableEq

/-- The top level of `code.js`: `build().catch(err =>
figma.closePlugin("Error: " + err.message))`, where `build()` itself
ends with `figma.closePlugin("Portfolio design created!")`.  The
build's outcome is its `Except` value (`error e` models a rejection
whose message is `e`); `driver` is the trace of outcome-report calls
the script then issues. -/
def driver (result : Except String Unit) : List HostCall :=
  match result with
  | Except.ok _ => [HostCall.closePlugin "Portfolio design created!"]
  | Except.error e => [HostCall.closePlugin ("Error: " ++ e)]

-- ── C1: the Projects section's total height ─────────────────────────

/-- C1 (counterexample).  The claim repeats the spec's assertion that
`80+120+650+40+700+40+698+80 = 1888`; but `PROJ_TOTAL`, which is
exactly that sum, is 2408, not 1888. -/
theorem projTotal_ne_1888 : PROJ_TOTAL ≠ 1888 := by
  norm_num [PROJ_TOTAL, ROW_H]

/-- C1 (amended).  The Projects section's consumed height equals the
fixed paddings (80, 120, 80) plus the literal row heights (650, 700,
698) plus the inter-row gaps (40, 40) — and that sum is 2408 (not
1888); in the assembled page the Projects section occupies exactly
`PROJ_TOTAL` vertical space for every measurement oracle. -/
theorem projTotal_literal_sum :
    PROJ_TOTAL = 80 + 120 + 650 + 40 + 700 + 40 + 698 + 80 ∧
    PROJ_TOTAL = 2408 ∧
    ∀ m : Measure, (buildPage m).aboutY - (buildPage m).projectsY = PROJ_TOTAL := by
  refine ⟨by norm_num [PROJ_TOTAL, ROW_H], by norm_num [PROJ_TOTAL, ROW_H],
    fun m => ?_⟩
  simp only [buildPage]
  ring

-- ── C4: negating imageLeft swaps columns and backgrounds ────────────

/-- C4.  Negating `imageLeft` swaps which of the two `COL`-wide columns
holds the image placeholder and which holds the real content (their
x-positions exchange), swaps the background assignment of the left and
right column frames the same way, and leaves the pair of colors used
across the two columns unchanged as a multiset. -/
theorem imageLeft_swap (p : ProjectEntry) (ry : ℚ) :
    (imgCol { p with imageLeft := !p.imageLeft } ry).x = (cCol p ry).x ∧
    (cCol { p with imageLeft := !p.imageLeft } ry).x = (imgCol p ry).x ∧
    (projRowCols { p with imageLeft := !p.imageLeft } ry).1.bg =
      (projRowCols p ry).2.bg ∧
    (projRowCols { p with imageLeft := !p.imageLeft } ry).2.bg =
      (projRowCols p ry).1.bg ∧
    ({(projRowCols { p with imageLeft := !p.imageLeft } ry).1.bg,
      (projRowCols { p with imageLeft := !p.imageLeft } ry).2.bg} : Multiset String) =
      {(projRowCols p ry).1.bg, (projRowCols p ry).2.bg} ∧
    (imgCol p ry).w = COL ∧ (cCol p ry).w = COL := by
  cases hp : p.imageLeft <;>
    simp [imgCol, cCol, projRowCols, hp] <;>
    exact Multiset.cons_swap _ _ 0

-- ── C5: the content-inset formula ───────────────────────────────────

/-- C5.  The content x-inset used by the script is the derived formula
`col − 400 − round(0.24·col)` applied at the column width `COL`; it
evaluates to 56 at the frame's column width 600, and is genuinely a
function of the column width, not a hardcoded 56: at widths 700 and
500 it gives 132 and −20. -/
theorem cX_formula :
    cXUsed = cX COL ∧ COL = 600 ∧ cX COL = 56 ∧
    cX 700 = 132 ∧ cX 500 = -20 ∧ cX 700 ≠ 56 ∧ cX 500 ≠ 56 := by
  refine ⟨rfl, by norm_num [COL, GW], by norm_num [cX, jsRound, COL, GW],
    by norm_num [cX, jsRound], by norm_num [cX, jsRound],
    by norm_num [cX, jsRound], by norm_num [cX, jsRound]⟩

-- ── C6: hero consumes 960px; centered H1 ────────────────────────────

/-- C6.  With frame width 1440 the hero section consumes exactly 960px
(the Projects section starts at y = 960 for every measurement oracle),
and the "PRODUCT DESIGNER" heading node sits at x = 0 with CENTER
alignment and a fixed width equal to the full 1440px frame width. -/
theorem hero_consumes_960 :
    heroConsumed = 960 ∧ h1.x = 0 ∧ h1.opts.align = "CENTER" ∧
    h1.opts.fixedW = some FW ∧ FW = 1440 ∧ h1.content = "PRODUCT DESIGNER" ∧
    ∀ m : Measure, (buildPage m).heroY = 0 ∧ (buildPage m).projectsY = 960 := by
  refine ⟨by norm_num [heroConsumed, HERO_H], rfl, rfl, rfl,
    by norm_num [FW], rfl, fun m => ⟨rfl, ?_⟩⟩
  simp only [buildPage]
  norm_num [HERO_H]

-- ── C7: sections stack with no gaps; root sized to the total ────────

/-- C7.  For every measurement oracle, the page assembler stacks the
three sections with no gaps: Hero at y = 0, Projects at the hero's
consumed height, About at hero plus projects; and the root frame is
resized to `(FW, heroConsumed + projConsumed + finalAboutH m)`. -/
theorem sections_stack_no_gaps (m : Measure) :
    (buildPage m).heroY = 0 ∧
    (buildPage m).projectsY = heroConsumed ∧
    (buildPage m).aboutY = heroConsumed + projConsumed ∧
    (buildPage m).rootW = FW ∧
    (buildPage m).rootH = heroConsumed + projConsumed + finalAboutH m := by
  refine ⟨rfl, ?_, ?_, rfl, ?_⟩ <;>
    · simp only [buildPage, heroConsumed, projConsumed]
      ring

-- ── C8: grid centering and column math ──────────────────────────────

/-- C8 (counterexample).  The claim says the 1200px grid centered in
the 1440px frame leaves 60px margins on each side; in fact
`GX = (1440 − 1200)/2 = 120`, so both margins are 120px, not 60px. -/
theorem grid_margins_not_60 : GX ≠ 60 ∧ FW - (GX + GW) ≠ 60 := by
  constructor <;> norm_num [GX, FW, GW]

/-- C8 (amended).  The 1200px grid is horizontally centered inside the
1440px frame leaving 120px margins on each side, with two equal 600px
columns: in every project row the left column frame sits at the grid's
left edge `GX` and the right column one column-width further right,
both `COL = 600` wide. -/
theorem grid_centered_columns :
    GX = 120 ∧ FW - (GX + GW) = 120 ∧ COL = 600 ∧ GX + COL + COL = GX + GW ∧
    ∀ (p : ProjectEntry) (ry : ℚ),
      (projRowCols p ry).1.x = GX ∧ (projRowCols p ry).1.w = COL ∧
      (projRowCols p ry).2.x = GX + COL ∧ (projRowCols p ry).2.w = COL := by
  refine ⟨by norm_num [GX, FW, GW], by norm_num [GX, FW, GW],
    by norm_num [COL, GW], by norm_num [GX, COL, FW, GW], fun p ry => ?_⟩
  simp [projRowCols]

-- ── C9: single outcome report, no retry ─────────────────────────────

/-- C9.  Whatever the build's outcome, the top level issues exactly one
outcome-report call and terminates: an error with message `e` produces
the single report `"Error: " ++ e`, success produces the single report
`"Portfolio design created!"`; in both cases the trace has length one
(no retry). -/
theorem build_outcome_single_report :
    (∀ e : String, driver (Except.error e) =
      [HostCall.closePlugin ("Error: " ++ e)]) ∧
    driver (Except.ok ()) = [HostCall.closePlugin "Portfolio design created!"] ∧
    ∀ r : Except String Unit, (driver r).length = 1 := by
  refine ⟨fun e => rfl, rfl, fun r => ?_⟩
  cases r <;> rfl

-- ── C10: inlineRow always advances the offset by 30 ─────────────────

/-- C10.  `inlineRow` returns the constant 30 for every measurement
oracle, position and content pair — the rendered heights of the two
text nodes it creates never feed back into the offset — so the
experience loop advances the running offset by exactly 4·30 and the
languages loop by exactly 3·30. -/
theorem inlineRow_advances_30 :
    (∀ (m : Measure) (x y : ℚ) (b d : String), (inlineRow m x y b d).2 = 30) ∧
    (∀ (m : Measure) (y0 : ℚ), expLoop m y0 = y0 + 4 * 30) ∧
    (∀ (m : Measure) (y0 : ℚ), langLoop m y0 = y0 + 3 * 30) := by
  refine ⟨fun m x y b d => rfl, fun m y0 => ?_, fun m y0 => ?_⟩ <;>
    · simp [expLoop, langLoop, expRows, langRows, inlineRow]
      ring

end Catasandru
